import Mathlib

/-!
Verification of the trip-reimbursement calculator.

The program (calculate_reimbursement.py) computes a reimbursement from
(trip_duration_days, miles_traveled, total_receipts_amount): it classifies the
trip by a first-match chain of three cluster rules (plus a default), evaluates
a fixed linear formula for the selected cluster, and rounds the result to two
decimal places.  A command-line wrapper parses three arguments, checks ranges,
and prints the result with two decimal places.  An offline tool
(derive_coefficients.py) partitions labelled records with the same
classification rule.

Numbers are modelled as exact rationals (`ℚ`); Python's `round(x, 2)` is
modelled as round-half-to-even at two decimals (`round2`).  Python's
`ZeroDivisionError` on `receipts / days` is modelled by an `Option`-valued
variant of the calculator (`calcChecked`), and the command-line wrapper is
modelled as a function from the argument count and the three parse results
(`Option`, `none` = the Python numeric constructor raised `ValueError`) to an
outcome.
-/

/-- Round a rational to the nearest integer, ties to the even integer.
Models Python's banker's rounding of the scaled value. -/
def roundHalfEven (q : ℚ) : ℤ :=
  if q - ⌊q⌋ < 1/2 then ⌊q⌋
  else if 1/2 < q - ⌊q⌋ then ⌊q⌋ + 1
  else if ⌊q⌋ % 2 = 0 then ⌊q⌋ else ⌊q⌋ + 1

/-- Models Python's `round(x, 2)`: round-half-to-even at two decimals. -/
def round2 (q : ℚ) : ℚ := (roundHalfEven (q * 100) : ℚ) / 100

/-- The four branches of `calculate_reimbursement` (the three clusters of the
docstring plus the default case). -/
inductive Cluster
  | longHighReceipts
  | shortLowActivity
  | midHighMileage
  | defaultCase
deriving DecidableEq

/-- The linear formula evaluated in each branch of `calculate_reimbursement`
(calculate_reimbursement.py lines 108-136); the default branch reuses the
Cluster-1 coefficients. -/
def clusterFormula : Cluster → ℚ → ℚ → ℚ → ℚ
  | Cluster.longHighReceipts, d, m, r => 87.111841 * d + 0.673030 * m + 0.285504 * r
  | Cluster.shortLowActivity, d, m, r => 94.201797 * d + 0.462207 * m + 0.253290 * r
  | Cluster.midHighMileage, d, m, r => 73.582926 * d + 0.506600 * m + 0.462858 * r
  | Cluster.defaultCase, d, m, r => 94.201797 * d + 0.462207 * m + 0.253290 * r

/-- The branch that the `if/elif/else` chain of `calculate_reimbursement`
selects, with the source's first-match order (lines 107, 115, 123, 131). -/
def classifyCluster (trip_duration_days miles_traveled total_receipts_amount : ℚ) : Cluster :=
  let receipts_per_day := total_receipts_amount / trip_duration_days
  if 5 ≤ trip_duration_days ∧ trip_duration_days ≤ 12 ∧ 100 ≤ receipts_per_day then
    Cluster.longHighReceipts
  else if trip_duration_days ≤ 6 ∧ receipts_per_day < 100 then
    Cluster.shortLowActivity
  else if trip_duration_days ≤ 9 ∧ 400 ≤ miles_traveled then
    Cluster.midHighMileage
  else
    Cluster.defaultCase

/-- The value of the local variable `reimbursement` in
`calculate_reimbursement` before rounding (lines 104-136). -/
def rawReimbursement (trip_duration_days miles_traveled total_receipts_amount : ℚ) : ℚ :=
  let receipts_per_day := total_receipts_amount / trip_duration_days
  if 5 ≤ trip_duration_days ∧ trip_duration_days ≤ 12 ∧ 100 ≤ receipts_per_day then
    87.111841 * trip_duration_days + 0.673030 * miles_traveled + 0.285504 * total_receipts_amount
  else if trip_duration_days ≤ 6 ∧ receipts_per_day < 100 then
    94.201797 * trip_duration_days + 0.462207 * miles_traveled + 0.253290 * total_receipts_amount
  else if trip_duration_days ≤ 9 ∧ 400 ≤ miles_traveled then
    73.582926 * trip_duration_days + 0.506600 * miles_traveled + 0.462858 * total_receipts_amount
  else
    94.201797 * trip_duration_days + 0.462207 * miles_traveled + 0.253290 * total_receipts_amount

/-- `calculate_reimbursement` (calculate_reimbursement.py lines 85-138):
the branch chain followed by `round(reimbursement, 2)`. -/
def calculate_reimbursement (trip_duration_days miles_traveled total_receipts_amount : ℚ) : ℚ :=
  round2 (rawReimbursement trip_duration_days miles_traveled total_receipts_amount)

/-- `calculate_reimbursement` with Python's `ZeroDivisionError` made explicit:
line 104 divides `total_receipts_amount / trip_duration_days` unconditionally,
which raises exactly when the day count is zero. -/
def calcChecked (trip_duration_days miles_traveled total_receipts_amount : ℚ) : Option ℚ :=
  if trip_duration_days = 0 then none
  else some (calculate_reimbursement trip_duration_days miles_traveled total_receipts_amount)

/-- `classify_trip` (derive_coefficients.py lines 12-31): cluster index of a
record, `-1` meaning unclassified (discarded). -/
def classify_trip (days miles receipts : ℚ) : ℤ :=
  let receipts_per_day := receipts / days
  if 5 ≤ days ∧ days ≤ 12 ∧ 100 ≤ receipts_per_day then 0
  else if days ≤ 6 ∧ receipts_per_day < 100 then 1
  else if days ≤ 9 ∧ 400 ≤ miles then 2
  else -1

/-- Outcome of one run of `main` (calculate_reimbursement.py lines 140-159):
exit 1 with one of the three stderr messages, exit 0 with the formatted result
on stdout, or an uncaught exception (`crash`, never reached). -/
inductive CliOutcome
  | usageError
  | formatError
  | rangeError
  | crash
  | success (stdout : String)
deriving DecidableEq

/-- Rendering of `f"{result:.2f}"` (line 155): the result always has at most
two decimals, so this formats `q` as a signed integer part, a dot, and exactly
two fraction digits. -/
def format2 (q : ℚ) : String :=
  let n : ℤ := roundHalfEven (q * 100)
  let sign := if n < 0 then "-" else ""
  let a : ℕ := n.natAbs
  let frac : ℕ := a % 100
  sign ++ toString (a / 100) ++ "." ++ (if frac < 10 then "0" else "") ++ toString frac

/-- `main` (calculate_reimbursement.py lines 140-159).  `argc` is
`len(sys.argv)` (program name plus arguments, so 4 on a correct call);
`daysOpt`, `milesOpt`, `receiptsOpt` are the results of `int(sys.argv[1])`,
`float(sys.argv[2])`, `float(sys.argv[3])`, with `none` for a raised
`ValueError`. -/
def mainModel (argc : ℕ) (daysOpt : Option ℤ) (milesOpt receiptsOpt : Option ℚ) : CliOutcome :=
  if argc ≠ 4 then CliOutcome.usageError
  else
    match daysOpt, milesOpt, receiptsOpt with
    | some days, some miles, some receipts =>
        if days < 1 ∨ miles < 0 ∨ receipts < 0 then CliOutcome.rangeError
        else
          match calcChecked (days : ℚ) miles receipts with
          | some result => CliOutcome.success (format2 result)
          | none => CliOutcome.crash
    | _, _, _ => CliOutcome.formatError

lemma roundHalfEven_int_add_half (k : ℤ) :
    roundHalfEven ((k : ℚ) + 1/2) = if k % 2 = 0 then k else k + 1 := by
  have hfloor : ⌊(k : ℚ) + 1/2⌋ = k := by
    rw [add_comm, Int.floor_add_int]
    norm_num
  unfold roundHalfEven
  rw [hfloor]
  norm_num

/-- Claim C1: on valid inputs `calculate_reimbursement` selects its branch by
the strict first-match order captured in `classifyCluster` (rule 1
LongHighReceipts, rule 2 ShortLowActivity, rule 3 MidHighMileage, then the
default) and evaluates the selected branch's formula; the boundary input
days = 5, receipts = 500 (receipts/days exactly 100) takes branch 1. -/
theorem calculate_reimbursement_branch_order :
    (∀ d m r : ℚ, 1 ≤ d → 0 ≤ m → 0 ≤ r →
      calculate_reimbursement d m r =
        round2 (clusterFormula (classifyCluster d m r) d m r)) ∧
    (∀ m : ℚ, 0 ≤ m → classifyCluster 5 m 500 = Cluster.longHighReceipts) := by
  constructor
  · intro d m r _ _ _
    simp only [calculate_reimbursement, rawReimbursement, classifyCluster]
    split_ifs <;> rfl
  · intro m _
    simp only [classifyCluster]
    norm_num

/-- Witness for C1 at the concrete inputs (3, 100, 50) and miles = 0. -/
theorem calculate_reimbursement_branch_order_witness :
    calculate_reimbursement 3 100 50 =
      round2 (clusterFormula (classifyCluster 3 100 50) 3 100 50) ∧
    classifyCluster 5 0 500 = Cluster.longHighReceipts :=
  ⟨calculate_reimbursement_branch_order.1 3 100 50 (by norm_num) (by norm_num) (by norm_num),
   calculate_reimbursement_branch_order.2 0 le_rfl⟩

/-- Claim C2: `calculate_reimbursement 8 450 300` takes the MidHighMileage
branch and returns exactly 955.49. -/
theorem calculate_reimbursement_eight_450_300 :
    calculate_reimbursement 8 450 300 = 955.49 ∧
    classifyCluster 8 450 300 = Cluster.midHighMileage := by
  constructor
  · norm_num [calculate_reimbursement, rawReimbursement, round2, roundHalfEven]
  · norm_num [classifyCluster]

/-- Claim C3: the returned value is the branch formula result rounded to two
decimals by `round2` with nothing else applied; `round2` rounds exact
half-cent ties to the even cent; and a negative formula value (reachable only
outside the valid range) is passed through rounding unmodified, with no floor
at zero. -/
theorem calculate_reimbursement_rounding :
    (∀ d m r : ℚ, 1 ≤ d → 0 ≤ m → 0 ≤ r →
      calculate_reimbursement d m r = round2 (rawReimbursement d m r)) ∧
    (∀ k : ℤ, round2 ((2 * (k : ℚ) + 1) / 200) =
      (if k % 2 = 0 then (k : ℚ) else (k : ℚ) + 1) / 100) ∧
    (calculate_reimbursement 1 (-1000) 0 = round2 (rawReimbursement 1 (-1000) 0) ∧
      calculate_reimbursement 1 (-1000) 0 < 0) := by
  refine ⟨fun d m r _ _ _ => rfl, ?_, rfl, ?_⟩
  · intro k
    have h : (2 * (k : ℚ) + 1) / 200 * 100 = (k : ℚ) + 1/2 := by ring
    unfold round2
    rw [h, roundHalfEven_int_add_half]
    split_ifs <;> push_cast <;> ring
  · norm_num [calculate_reimbursement, rawReimbursement, round2, roundHalfEven]

/-- Witness for C3 at the concrete input (3, 100, 50) and the tie k = 2. -/
theorem calculate_reimbursement_rounding_witness :
    calculate_reimbursement 3 100 50 = round2 (rawReimbursement 3 100 50) ∧
    round2 ((2 * ((2 : ℤ) : ℚ) + 1) / 200) =
      (if (2 : ℤ) % 2 = 0 then ((2 : ℤ) : ℚ) else ((2 : ℤ) : ℚ) + 1) / 100 :=
  ⟨calculate_reimbursement_rounding.1 3 100 50 (by norm_num) (by norm_num) (by norm_num),
   calculate_reimbursement_rounding.2.1 2⟩

/-- Claim C4: the command-line entry point reports a usage error when the
argument count is wrong (`argc` counts `sys.argv`, so a correct call has
`argc = 4`), a format error when any argument fails to parse, a range error
when days < 1 or miles < 0 or receipts < 0 (never reaching the computation),
and on valid input succeeds printing the two-decimal formatted result. -/
theorem mainModel_cli_contract :
    (∀ (argc : ℕ) (dOpt : Option ℤ) (mOpt rOpt : Option ℚ), argc ≠ 4 →
      mainModel argc dOpt mOpt rOpt = CliOutcome.usageError) ∧
    (∀ (dOpt : Option ℤ) (mOpt rOpt : Option ℚ),
      dOpt = none ∨ mOpt = none ∨ rOpt = none →
      mainModel 4 dOpt mOpt rOpt = CliOutcome.formatError) ∧
    (∀ (d : ℤ) (m r : ℚ), d < 1 ∨ m < 0 ∨ r < 0 →
      mainModel 4 (some d) (some m) (some r) = CliOutcome.rangeError) ∧
    (∀ (d : ℤ) (m r : ℚ), 1 ≤ d → 0 ≤ m → 0 ≤ r →
      mainModel 4 (some d) (some m) (some r) =
        CliOutcome.success (format2 (calculate_reimbursement (d : ℚ) m r))) := by
  refine ⟨?_, ?_, ?_, ?_⟩
  · intro argc dOpt mOpt rOpt h
    simp [mainModel, h]
  · rintro dOpt mOpt rOpt (rfl | rfl | rfl)
    · rfl
    · cases dOpt <;> rfl
    · cases dOpt with
      | none => rfl
      | some d => cases mOpt <;> rfl
  · intro d m r h
    rcases h with h | h | h <;> simp [mainModel, h]
  · intro d m r hd hm hr
    have h1 : ¬(d < 1 ∨ m < 0 ∨ r < 0) := by push_neg; exact ⟨hd, hm, hr⟩
    have h2 : ((d : ℚ)) ≠ 0 := by
      have h3 : (1 : ℚ) ≤ (d : ℚ) := by exact_mod_cast hd
      exact ne_of_gt (lt_of_lt_of_le zero_lt_one h3)
    simp [mainModel, h1, calcChecked, h2]

/-- Witness for C4: wrong argument count, out-of-range input, and a valid
call. -/
theorem mainModel_cli_contract_witness :
    mainModel 3 none none none = CliOutcome.usageError ∧
    mainModel 4 (some 0) (some 0) (some 0) = CliOutcome.rangeError ∧
    mainModel 4 (some 1) (some 0) (some 0) =
      CliOutcome.success (format2 (calculate_reimbursement ((1 : ℤ) : ℚ) 0 0)) :=
  ⟨mainModel_cli_contract.1 3 none none none (by norm_num),
   mainModel_cli_contract.2.2.1 0 0 0 (Or.inl (by norm_num)),
   mainModel_cli_contract.2.2.2 1 0 0 le_rfl le_rfl le_rfl⟩

/-- Claim C5: on valid inputs the returned reimbursement is non-negative. -/
theorem calculate_reimbursement_nonneg (d m r : ℚ)
    (hd : 1 ≤ d) (hm : 0 ≤ m) (hr : 0 ≤ r) :
    0 ≤ calculate_reimbursement d m r := by
  have hd0 : (0 : ℚ) ≤ d := le_trans zero_le_one hd
  have hraw : 0 ≤ rawReimbursement d m r := by
    simp only [rawReimbursement]
    split_ifs <;> linarith
  have h100 : (0 : ℚ) ≤ rawReimbursement d m r * 100 := by linarith
  have hf : (0 : ℤ) ≤ ⌊rawReimbursement d m r * 100⌋ := Int.floor_nonneg.mpr h100
  have hz : (0 : ℤ) ≤ roundHalfEven (rawReimbursement d m r * 100) := by
    unfold roundHalfEven
    split_ifs <;> omega
  have hq : (0 : ℚ) ≤ (roundHalfEven (rawReimbursement d m r * 100) : ℚ) := by
    exact_mod_cast hz
  exact div_nonneg hq (by norm_num)

/-- Witness for C5 at the concrete input (1, 0, 0). -/
theorem calculate_reimbursement_nonneg_witness :
    0 ≤ calculate_reimbursement 1 0 0 :=
  calculate_reimbursement_nonneg 1 0 0 le_rfl le_rfl le_rfl

/-- Claim C6: the calculator is deterministic and pure; equal argument
triples give equal results and byte-identical formatted output. -/
theorem calculate_reimbursement_deterministic (d₁ m₁ r₁ d₂ m₂ r₂ : ℚ)
    (hd : d₁ = d₂) (hm : m₁ = m₂) (hr : r₁ = r₂) :
    calculate_reimbursement d₁ m₁ r₁ = calculate_reimbursement d₂ m₂ r₂ ∧
    format2 (calculate_reimbursement d₁ m₁ r₁) =
      format2 (calculate_reimbursement d₂ m₂ r₂) := by
  subst hd
  subst hm
  subst hr
  exact ⟨rfl, rfl⟩

/-- Witness for C6 at the concrete input (3, 100, 50). -/
theorem calculate_reimbursement_deterministic_witness :
    calculate_reimbursement 3 100 50 = calculate_reimbursement 3 100 50 ∧
    format2 (calculate_reimbursement 3 100 50) =
      format2 (calculate_reimbursement 3 100 50) :=
  calculate_reimbursement_deterministic 3 100 50 3 100 50 rfl rfl rfl

/-- Claim C7: the offline deriver's `classify_trip` partitions records by the
calculator's classification rule: cluster 0, 1, 2 exactly when the calculator
takes branch LongHighReceipts, ShortLowActivity, MidHighMileage respectively,
and -1 exactly on the calculator's default branch. -/
theorem classify_trip_matches_calculator (d m r : ℚ) (_hd : 1 ≤ d) :
    (classify_trip d m r = 0 ↔ classifyCluster d m r = Cluster.longHighReceipts) ∧
    (classify_trip d m r = 1 ↔ classifyCluster d m r = Cluster.shortLowActivity) ∧
    (classify_trip d m r = 2 ↔ classifyCluster d m r = Cluster.midHighMileage) ∧
    (classify_trip d m r = -1 ↔ classifyCluster d m r = Cluster.defaultCase) := by
  simp only [classify_trip, classifyCluster]
  split_ifs <;> norm_num

/-- Witness for C7 at the concrete input (3, 100, 50), which is cluster 1. -/
theorem classify_trip_matches_calculator_witness :
    classifyCluster 3 100 50 = Cluster.shortLowActivity :=
  ((classify_trip_matches_calculator 3 100 50 (by norm_num)).2.1).mp
    (by norm_num [classify_trip])

/-- Claim C8: every trip of 13 or more days takes the default branch (no
cluster rule can match), so it is reimbursed with the ShortLowActivity
coefficients. -/
theorem long_trips_take_default_branch (d m r : ℚ) (hd : 13 ≤ d) :
    classifyCluster d m r = Cluster.defaultCase ∧
    calculate_reimbursement d m r =
      round2 (94.201797 * d + 0.462207 * m + 0.253290 * r) := by
  constructor
  · simp only [classifyCluster]
    split_ifs with h1 h2 h3
    · exact absurd h1.2.1 (by linarith)
    · exact absurd h2.1 (by linarith)
    · exact absurd h3.1 (by linarith)
    · rfl
  · simp only [calculate_reimbursement, rawReimbursement]
    split_ifs with h1 h2 h3
    · exact absurd h1.2.1 (by linarith)
    · exact absurd h2.1 (by linarith)
    · exact absurd h3.1 (by linarith)
    · rfl

/-- Witness for C8 at the concrete input (13, 0, 0). -/
theorem long_trips_take_default_branch_witness :
    classifyCluster 13 0 0 = Cluster.defaultCase ∧
    calculate_reimbursement 13 0 0 =
      round2 (94.201797 * 13 + 0.462207 * 0 + 0.253290 * 0) :=
  long_trips_take_default_branch 13 0 0 le_rfl

/-- Claim C9: the unconditional division `receipts / days` never divides by
zero under the precondition days >= 1 (`calcChecked` succeeds), and no run of
the command-line wrapper can reach the division-by-zero crash. -/
theorem division_by_zero_unreachable :
    (∀ d m r : ℚ, 1 ≤ d →
      calcChecked d m r = some (calculate_reimbursement d m r)) ∧
    (∀ (argc : ℕ) (dOpt : Option ℤ) (mOpt rOpt : Option ℚ),
      mainModel argc dOpt mOpt rOpt ≠ CliOutcome.crash) := by
  constructor
  · intro d m r hd
    unfold calcChecked
    rw [if_neg (by intro h; rw [h] at hd; norm_num at hd)]
  · intro argc dOpt mOpt rOpt
    by_cases hargc : argc ≠ 4
    · simp [mainModel, hargc]
    · rw [not_not] at hargc
      subst hargc
      cases dOpt with
      | none => simp [mainModel]
      | some d =>
        cases mOpt with
        | none => simp [mainModel]
        | some m =>
          cases rOpt with
          | none => simp [mainModel]
          | some r =>
            by_cases hrange : d < 1 ∨ m < 0 ∨ r < 0
            · simp [mainModel, hrange]
            · have hd : 1 ≤ d := by
                push_neg at hrange
                exact hrange.1
              have hdq : ((d : ℚ)) ≠ 0 := by
                have h3 : (1 : ℚ) ≤ (d : ℚ) := by exact_mod_cast hd
                exact ne_of_gt (lt_of_lt_of_le zero_lt_one h3)
              simp [mainModel, hrange, calcChecked, hdq]

/-- Witness for C9 at the concrete input (1, 0, 0). -/
theorem division_by_zero_unreachable_witness :
    calcChecked 1 0 0 = some (calculate_reimbursement 1 0 0) :=
  division_by_zero_unreachable.1 1 0 0 le_rfl

/-- Claim C10: the calculator is not monotone in miles: at days = 7 and zero
receipts, 399 miles pays 843.83 through the default branch while 400 miles
pays only 717.72 through the MidHighMileage branch. -/
theorem calculate_reimbursement_not_monotone_in_miles :
    ∃ d mlow mhigh r : ℚ, 1 ≤ d ∧ 0 ≤ mlow ∧ 0 ≤ r ∧ mlow < mhigh ∧
      calculate_reimbursement d mhigh r < calculate_reimbursement d mlow r := by
  refine ⟨7, 399, 400, 0, by norm_num, by norm_num, le_rfl, by norm_num, ?_⟩
  have h1 : calculate_reimbursement 7 399 0 = 843.83 := by
    norm_num [calculate_reimbursement, rawReimbursement, round2, roundHalfEven]
  have h2 : calculate_reimbursement 7 400 0 = 717.72 := by
    norm_num [calculate_reimbursement, rawReimbursement, round2, roundHalfEven]
  rw [h1, h2]
  norm_num
